import Mathlib

/-
Verification of the interactive test-run session of the certification-tool
CLI (project-chip/certification-tool-cli), as a shallow embedding in Lean.

The embedded components and the source files they are translated from:
  * src/th_cli/test_run/socket_schemas.py        -- message schema types
  * src/th_cli/test_run/prompt_manager.py        -- prompt dispatcher/handlers
  * src/th_cli/test_run/websocket.py             -- session message router
  * src/th_cli/th_utils/ffmpeg_converter.py      -- transcoder output pump
  * src/th_cli/test_run/camera/camera_stream_handler.py -- video prompt resources
  * src/th_cli/test_run/camera/camera_http_server.py    -- embedded HTTP server
  * src/th_cli/test_run/camera/webrtc_session.py        -- signaling peer

Python built-ins that the code relies on (int() coercion, queue.Queue with
maxsize, re.match) are embedded as explicit Lean functions first.
-/

namespace ThCli

/-! ## Python built-in primitives -/

/-- Value of a decimal digit string, most significant digit first. -/
def digitsVal (l : List Char) : Nat :=
  l.foldl (fun acc c => acc * 10 + (c.toNat - 48)) 0

/-- Surrounding-whitespace strip on a character list (the `str.strip()`
Python `int()` applies to its argument). -/
def pyStrStrip (s : List Char) : List Char :=
  ((s.dropWhile Char.isWhitespace).reverse.dropWhile Char.isWhitespace).reverse

/-- Nonempty all-digit check for the body of an integer literal. -/
def allDigits (l : List Char) : Bool :=
  !l.isEmpty && l.all Char.isDigit

/-- Python `int(s)` on a string: strips surrounding whitespace, accepts an
optional sign followed by one or more decimal digits, and raises ValueError
(here: `none`) otherwise. -/
def pyIntOfString (s : String) : Option Int :=
  match pyStrStrip s.toList with
  | '-' :: ds => if allDigits ds then some (-(digitsVal ds : Int)) else none
  | '+' :: ds => if allDigits ds then some ((digitsVal ds : Int)) else none
  | ds => if allDigits ds then some ((digitsVal ds : Int)) else none

/-- Python `str.lower()` restricted to ASCII case mapping. -/
def pyLower (s : String) : String :=
  String.mk (s.toList.map Char.toLower)

/-- Python `queue.Queue(maxsize).put_nowait(x)`: a queue with `maxsize = 0`
is unbounded; a put on a full bounded queue raises `queue.Full`
(here: `none`); otherwise the item is appended at the tail. -/
def pyQueuePutNowait {α : Type} (maxsize : Nat) (q : List α) (x : α) : Option (List α) :=
  if maxsize = 0 ∨ q.length < maxsize then some (q ++ [x]) else none

/-! ## socket_schemas.py -/

/-- TestStateEnum from socket_schemas.py. -/
inductive TestStateEnum where
  | PENDING
  | EXECUTING
  | PENDING_ACTUATION
  | PASSED
  | FAILED
  | ERROR
  | NOT_APPLICABLE
  | CANCELLED
  deriving DecidableEq, Repr

/-- UserResponseStatusEnum from socket_schemas.py (an IntEnum). -/
inductive UserResponseStatusEnum where
  | OKAY
  | CANCELLED
  | TIMEOUT
  | INVALID
  deriving DecidableEq, Repr

/-- Integer value of each UserResponseStatusEnum member
(OKAY = 0, CANCELLED = -1, TIMEOUT = -2, INVALID = -3). -/
def UserResponseStatusEnum.code : UserResponseStatusEnum → Int
  | .OKAY => 0
  | .CANCELLED => -1
  | .TIMEOUT => -2
  | .INVALID => -3

/-- The `Union[int, str]` type of PromptResponse.response. -/
inductive ResponseValue where
  | int (n : Int)
  | str (s : String)
  deriving DecidableEq, Repr

/-- PromptResponse from socket_schemas.py: the payload of every outbound
`prompt_response` message. -/
structure PromptResponseMsg where
  response : ResponseValue
  status_code : UserResponseStatusEnum
  message_id : Int
  deriving DecidableEq, Repr

/-- OptionsSelectPromptRequest from socket_schemas.py; the `options` dict
`dict[str, int]` is embedded as its item list. -/
structure OptionsSelectPromptRequest where
  prompt : String
  timeout : Int
  message_id : Int
  options : List (String × Int)
  deriving DecidableEq, Repr

/-- TextInputPromptRequest from socket_schemas.py. The regex pattern is
embedded as its denotation, a `RegularExpression Char` (`None` stays
`Option.none`). -/
structure TextInputPromptRequest where
  prompt : String
  timeout : Int
  message_id : Int
  regex_pattern : Option (RegularExpression Char)

/-! ## prompt_manager.py: __send_prompt_response -/

/-- Embedding of `__send_prompt_response` (prompt_manager.py lines 250-263):
builds the PromptResponse sent on the socket.  The status code is always
`UserResponseStatusEnum.OKAY` in the source. -/
def sendPromptResponse (input : ResponseValue) (message_id : Int) : PromptResponseMsg :=
  { response := input
    status_code := UserResponseStatusEnum.OKAY
    message_id := message_id }

/-! ## prompt_manager.py: options prompts -/

/-- Embedding of `__prompt_user_for_option` (prompt_manager.py lines 85-107)
run against a stream of user input lines: `int(input)` is attempted; a value
that parses and is a member of `options.values()` is returned; otherwise the
function prints an error and retries on the next line.  `none` models the
loop still waiting for input when the stream is exhausted (in the source the
coroutine would still be blocked when the surrounding timeout fires). -/
def promptUserForOption (options : List (String × Int)) : List String → Option Int
  | [] => none
  | line :: rest =>
    match pyIntOfString line with
    | some n =>
      if (options.map (fun kv => kv.2)).contains n then some n
      else promptUserForOption options rest
    | none => promptUserForOption options rest

/-- Embedding of `__handle_options_prompt` (prompt_manager.py lines 76-82),
returning the list of `prompt_response` messages it sends.  `timesOut = true`
models `asyncio.wait_for` raising TimeoutError before the inner prompt
coroutine completes: the handler catches it, prints "Prompt timed out" and
sends nothing.  Otherwise the collected answer is sent via
`__send_prompt_response`. -/
def handleOptionsPrompt (prompt : OptionsSelectPromptRequest) (inputs : List String)
    (timesOut : Bool) : List PromptResponseMsg :=
  if timesOut then []
  else
    match promptUserForOption prompt.options inputs with
    | some n => [sendPromptResponse (ResponseValue.int n) prompt.message_id]
    | none => []

/-! ## prompt_manager.py: text prompts -/

/-- Python `re.match(pattern, s)`: the pattern is matched at the beginning of
the string, i.e. the match succeeds iff some prefix of `s` is in the
pattern's language.  It is anchored at the start only, not at the end. -/
def pyReMatch (r : RegularExpression Char) (s : List Char) : Bool :=
  (List.range (s.length + 1)).any (fun k => r.rmatch (s.take k))

/-- A full (both-ends anchored) match, the reading the spec describes:
the entire input is in the pattern's language. -/
def fullMatch (r : RegularExpression Char) (s : List Char) : Bool :=
  r.rmatch s

/-- Embedding of `__valid_text_input` (prompt_manager.py lines 226-233):
with no regex pattern every string is valid; with a pattern, validity is
`re.match(prompt.regex_pattern, input) is not None`.  (The
`isinstance(input, str)` guard is always satisfied here since the input of
`aioconsole.ainput` is a string.) -/
def validTextInput (input : List Char) (prompt : TextInputPromptRequest) : Bool :=
  match prompt.regex_pattern with
  | none => true
  | some r => pyReMatch r input

/-- Embedding of `__prompt_user_for_text_input` (prompt_manager.py lines
133-149) run against a stream of user input lines: the first line passing
`__valid_text_input` is returned; an invalid line provokes an error echo and
a retry.  `none` models the loop still waiting when the stream is exhausted
(the surrounding timeout would then fire). -/
def promptUserForTextInput (prompt : TextInputPromptRequest) :
    List (List Char) → Option (List Char)
  | [] => none
  | line :: rest =>
    if validTextInput line prompt then some line
    else promptUserForTextInput prompt rest

/-- Embedding of `__handle_text_prompt` (prompt_manager.py lines 110-116),
returning the list of `prompt_response` messages it sends: the collected
answer is sent with status OKAY; a timeout is caught and nothing is sent. -/
def handleTextPrompt (prompt : TextInputPromptRequest) (inputs : List (List Char))
    (timesOut : Bool) : List PromptResponseMsg :=
  if timesOut then []
  else
    match promptUserForTextInput prompt inputs with
    | some line => [sendPromptResponse (ResponseValue.str (String.mk line)) prompt.message_id]
    | none => []

/-! ## prompt_manager.py: file-upload prompts -/

/-- MAX_FILE_SIZE from prompt_manager.py line 49: 100 MiB in bytes. -/
def MAX_FILE_SIZE : Nat := 100 * 1024 * 1024

/-- The filesystem facts about a candidate upload path that the handler
queries: `os.path.isfile`, `os.access(path, os.R_OK)`,
`os.path.splitext(path)[1]` and `os.path.getsize`. -/
structure FileInfo where
  isFile : Bool
  readable : Bool
  ext : String
  size : Nat
  deriving DecidableEq, Repr

/-- Embedding of `__valid_file_upload` (prompt_manager.py lines 236-247):
the path must be a regular file, readable, and its lower-cased extension
must be `.txt` or `.log`.  No size check happens here. -/
def validFileUpload (f : FileInfo) : Bool :=
  f.isFile && f.readable && [".txt", ".log"].contains (pyLower f.ext)

/-- Result of `__upload_file_and_send_response`: whether any network request
was issued, and the value of the prompt response that was sent. -/
structure UploadResult where
  networkAttempted : Bool
  responseValue : String
  deriving DecidableEq, Repr

/-- Embedding of `__upload_file_and_send_response` (prompt_manager.py lines
176-223).  The handler re-checks `os.path.isfile` and then the size limit
(`file_size > MAX_FILE_SIZE`) and on either failure sends an empty-value
response without any network I/O; otherwise it POSTs the file
(`httpStatus = none` models a network error) and sends "SUCCESS" exactly on
HTTP 200, the empty string otherwise. -/
def uploadFileAndSendResponse (f : FileInfo) (httpStatus : Option Nat) : UploadResult :=
  if !f.isFile then { networkAttempted := false, responseValue := "" }
  else if f.size > MAX_FILE_SIZE then { networkAttempted := false, responseValue := "" }
  else
    match httpStatus with
    | some 200 => { networkAttempted := true, responseValue := "SUCCESS" }
    | some _ => { networkAttempted := true, responseValue := "" }
    | none => { networkAttempted := true, responseValue := "" }

/-! ## ffmpeg_converter.py and camera_stream_handler.py: the MP4 fan-out queue -/

/-- Maxsize of `FFmpegStreamConverter.output_queue` (ffmpeg_converter.py
line 35): `queue.Queue()` is constructed with no argument, i.e.
`maxsize = 0`, which in Python means unbounded. -/
def ffmpegOutputQueueMaxsize : Nat := 0

/-- Maxsize of `CameraStreamHandler.mp4_queue` (camera_stream_handler.py
line 45): `queue.Queue()`, i.e. unbounded. -/
def cameraMp4QueueMaxsize : Nat := 0

/-- Maxsize of `CameraStreamHandler.response_queue` (camera_stream_handler.py
line 46): `queue.Queue()`, i.e. unbounded. -/
def cameraResponseQueueMaxsize : Nat := 0

/-- Embedding of the loop body of `FFmpegStreamConverter._read_ffmpeg_output`
(ffmpeg_converter.py lines 62-73) over the sequence of chunks read from the
transcoder's stdout: each chunk is enqueued with `put_nowait`; a
`queue.Full` exception is swallowed, dropping the chunk.  Returns the final
queue contents starting from queue state `q`. -/
def readFFmpegOutput (chunks : List Nat) (q : List Nat) : List Nat :=
  match chunks with
  | [] => q
  | c :: cs =>
    match pyQueuePutNowait ffmpegOutputQueueMaxsize q c with
    | some q2 => readFFmpegOutput cs q2
    | none => readFFmpegOutput cs q

/-! ## camera_http_server.py: POST /submit_response -/

/-- A decoded JSON value as Python sees it after `json.loads`.  JSON `null`
becomes Python `None` and is represented together with a missing key as
`Option.none` at the use site; JSON floats do not occur in the claims and
are not modelled. -/
inductive PyJson where
  | jInt (n : Int)
  | jBool (b : Bool)
  | jStr (s : String)
  | jList
  | jObj
  deriving DecidableEq, Repr

/-- The Python exception class raised by `int(x)` on a non-integer input:
strings that do not parse raise ValueError, while lists and dicts raise
TypeError. -/
inductive PyErr where
  | valueError
  | typeError
  deriving DecidableEq, Repr

/-- Python `int(x)` on a decoded JSON value: integers pass through, booleans
coerce to 0/1, strings are parsed (ValueError on failure), lists and
objects raise TypeError. -/
def pyIntCoerce : PyJson → Except PyErr Int
  | .jInt n => .ok n
  | .jBool b => .ok (if b then 1 else 0)
  | .jStr s =>
    match pyIntOfString s with
    | some n => .ok n
    | none => .error .valueError
  | .jList => .error .typeError
  | .jObj => .error .typeError

/-- An HTTP response of the embedded server: status code and (for the
success case) body. -/
structure HttpResult where
  status : Nat
  body : String
  deriving DecidableEq, Repr

/-- Embedding of `VideoStreamingHandler.handle_response` (camera_http_server.py
lines 108-180).  `body = none` models a request whose body could not be
decoded (missing Content-Length or `json.JSONDecodeError`), answered 400;
`body = some none` models a decoded object whose `response` key is missing or
null, which raises ValueError, answered 400.  Otherwise `int(raw_response)`
is attempted: ValueError is answered 400, any other exception (TypeError)
falls to the generic handler answered 500.  A successfully coerced value is
enqueued with `put_nowait` on the response queue of capacity `maxsize`
(500 if the queue is full) and answered 200 with the success JSON body.
Returns the HTTP result and the new response-queue contents. -/
def handleResponse (body : Option (Option PyJson)) (respQueue : List Int)
    (maxsize : Nat) : HttpResult × List Int :=
  match body with
  | none => ({ status := 400, body := "" }, respQueue)
  | some none => ({ status := 400, body := "" }, respQueue)
  | some (some v) =>
    match pyIntCoerce v with
    | .error .valueError => ({ status := 400, body := "" }, respQueue)
    | .error .typeError => ({ status := 500, body := "" }, respQueue)
    | .ok n =>
      match pyQueuePutNowait maxsize respQueue n with
      | some q2 => ({ status := 200, body := "\x7b\"status\": \"success\"\x7d" }, q2)
      | none => ({ status := 500, body := "" }, respQueue)

/-! ## prompt_manager.py: handle_video_prompt_internal as an event trace -/

/-- Observable resource/IO events of `handle_video_prompt_internal`
(prompt_manager.py lines 266-305), in source order:
  * `startHTTP`: `http_server.start` inside
    `CameraStreamHandler.start_video_capture_and_stream`
    (camera_stream_handler.py line 71);
  * `echoURL`: the `click.echo` printing the verification URL (line 277);
  * `openBrowser`: `__open_live_stream()` (line 280);
  * `stopHTTP`: `http_server.stop` inside
    `CameraStreamHandler.stop_video_capture_and_stream`
    (camera_stream_handler.py line 173);
  * `sendResponse`: `__send_prompt_response` (line 294);
  * `echoNoAnswer`: the error echo when the web UI returned no answer;
  * `echoTimeoutErr` / `stopFresh`: the TimeoutError handler, which echoes
    and calls `stop_video_capture_and_stream` on a freshly constructed
    handler whose HTTP server field is `None`, so the live server is not
    stopped there;
  * `echoHandlerErr`: the generic exception handler's echo. -/
inductive VEvent where
  | startHTTP
  | echoURL
  | openBrowser
  | stopHTTP
  | sendResponse
  | echoNoAnswer
  | echoTimeoutErr
  | stopFresh
  | echoHandlerErr
  deriving DecidableEq, Repr

/-- The ways a run of `handle_video_prompt_internal` can unfold: whether
`start_video_capture_and_stream` raises (e.g. an HTTP bind failure), whether
`wait_for_user_response` raises, whether a raised exception is an
`asyncio.TimeoutError` (choosing the except branch), and whether the web UI
produced an answer (`wait_for_user_response` returned non-None). -/
structure VideoRunEnv where
  startRaises : Bool
  waitRaises : Bool
  excIsTimeout : Bool
  answered : Bool
  deriving DecidableEq, Repr

/-- Events emitted by the matching except branch of
`handle_video_prompt_internal`: the TimeoutError branch echoes and stops a
fresh (inactive) handler; the generic branch only echoes. -/
def videoExceptTrace (excIsTimeout : Bool) : List VEvent :=
  if excIsTimeout then [VEvent.echoTimeoutErr, VEvent.stopFresh]
  else [VEvent.echoHandlerErr]

/-- Event trace of `handle_video_prompt_internal` (prompt_manager.py lines
266-305) under environment `e`, following the source line by line: start the
capture/HTTP server, echo the URL, open the browser, wait for the web UI
answer; on a None answer echo an error and return; otherwise stop the
capture (which stops the HTTP server) and send the prompt response.
Exceptions from the start or the wait jump to the except branches. -/
def handleVideoPromptTrace (e : VideoRunEnv) : List VEvent :=
  if e.startRaises then videoExceptTrace e.excIsTimeout
  else
    [VEvent.startHTTP, VEvent.echoURL, VEvent.openBrowser] ++
      (if e.waitRaises then videoExceptTrace e.excIsTimeout
       else if e.answered then [VEvent.stopHTTP, VEvent.sendResponse]
       else [VEvent.echoNoAnswer])

/-- The event `b` never occurs before the first occurrence of the event `a`
in trace `t`: every `b` is preceded by an earlier `a`. -/
def eventPrecedes (a b : VEvent) (t : List VEvent) : Bool :=
  !((t.takeWhile (fun x => x ≠ a)).contains b)

/-! ## websocket.py: the session message router -/

/-- Message kinds of the event channel.  `shared_constants.py` is not under
src/; modelled from the spec: the message kinds of spec section 4.1
(`test-update`, `prompt-*`, `log-records`, `timeout-notification`) together
with the members referenced by websocket.py (`FILE_UPLOAD_REQUEST`,
`TEST_LOG_RECORDS`).  Only distinctness of members matters to the router. -/
inductive MessageTypeEnum where
  | TEST_UPDATE
  | TEST_LOG_RECORDS
  | TIME_OUT_NOTIFICATION
  | PROMPT_REQUEST
  | OPTIONS_REQUEST
  | FILE_UPLOAD_REQUEST
  | INVALID_MESSAGE
  deriving DecidableEq, Repr

/-- The payload shapes the router of
`TestRunSocket.__handle_incoming_socket_message` distinguishes with
`isinstance`: a TestUpdate, any PromptRequest (every prompt subclass of
socket_schemas.py is an instance of PromptRequest, so one constructor
carrying the base fields covers them all), a list of log records, or a
TimeOutNotification. -/
inductive SocketPayload where
  | testUpdate
  | promptRequest (prompt : String) (timeout : Int) (message_id : Int)
  | logRecords (count : Nat)
  | timeoutNotification (message_id : Int)
  deriving DecidableEq, Repr

/-- An inbound socket message after schema validation: envelope
`{type, payload}`. -/
structure SocketMsg where
  type : MessageTypeEnum
  payload : SocketPayload
  deriving DecidableEq, Repr

/-- Parameter names of `handle_prompt` (prompt_manager.py line 52):
`async def handle_prompt(socket, request)`. -/
def handlePromptParams : List String := ["socket", "request"]

/-- `handle_prompt` declares no `**kwargs` catch-all. -/
def handlePromptHasVarKeyword : Bool := false

/-- Keyword-argument names at the `handle_prompt` call site (websocket.py
line 96): `handle_prompt(socket=socket, request=message.payload,
message_type=message.type)`. -/
def handlePromptCallKwargs : List String := ["socket", "request", "message_type"]

/-- Python call binding: a call raises TypeError when a keyword argument
name is not among the callee's parameters and the callee has no `**kwargs`
catch-all ("got an unexpected keyword argument"). -/
def pyCallRaisesTypeError (params : List String) (hasVarKeyword : Bool)
    (kwargs : List String) : Bool :=
  !hasVarKeyword && kwargs.any (fun k => !(params.contains k))

/-- Outcome of routing one inbound message. -/
inductive DispatchOutcome where
  | handledTestUpdate
  | handledFileUpload
  | promptTypeError
  | dispatchedPrompt
  | handledLogRecords
  | ignoredTimeout
  | unknownLogged
  deriving DecidableEq, Repr

/-- Embedding of `TestRunSocket.__handle_incoming_socket_message`
(websocket.py lines 84-106), mirroring its elif chain: TestUpdate payloads
go to the update handler; PromptRequest payloads go to
`handle_file_upload_request` when the message type is FILE_UPLOAD_REQUEST
and otherwise to the `handle_prompt` call of line 96, whose keyword binding
is checked against the `handle_prompt` signature; list payloads with type
TEST_LOG_RECORDS go to the log handler; TimeOutNotification payloads are
ignored; anything else is logged as unknown. -/
def handleIncomingSocketMessage (m : SocketMsg) : DispatchOutcome :=
  match m.payload with
  | .testUpdate => .handledTestUpdate
  | .promptRequest _ _ _ =>
    if m.type = MessageTypeEnum.FILE_UPLOAD_REQUEST then .handledFileUpload
    else if pyCallRaisesTypeError handlePromptParams handlePromptHasVarKeyword
        handlePromptCallKwargs then .promptTypeError
    else .dispatchedPrompt
  | .logRecords _ =>
    if m.type = MessageTypeEnum.TEST_LOG_RECORDS then .handledLogRecords
    else .unknownLogged
  | .timeoutNotification _ => .ignoredTimeout

/-! ## websocket.py: the tracked step-error map -/

/-- The dict `TestRunSocket.test_case_step_errors`, keyed by
`(suite index, case index)`, embedded as an insertion-ordered association
list without duplicate keys (Python dict semantics). -/
abbrev StepErrorMap : Type := List ((Nat × Nat) × List String)

/-- Dict lookup `m.get(k)` / `k in m`. -/
def dictLookup (m : StepErrorMap) (k : Nat × Nat) : Option (List String) :=
  match m with
  | [] => none
  | e :: rest => if e.1 = k then some e.2 else dictLookup rest k

/-- Dict update `m[k] = v` for a key already present: replace in place. -/
def dictSet (m : StepErrorMap) (k : Nat × Nat) (v : List String) : StepErrorMap :=
  match m with
  | [] => []
  | e :: rest => if e.1 = k then (k, v) :: rest else e :: dictSet rest k v

/-- Dict deletion `del m[k]`: the key is removed (a Python dict holds a key
at most once, so removing every occurrence is the same operation). -/
def dictErase (m : StepErrorMap) (k : Nat × Nat) : StepErrorMap :=
  match m with
  | [] => []
  | e :: rest => if e.1 = k then dictErase rest k else e :: dictErase rest k

/-- TestStepUpdate from socket_schemas.py (the fields
`__log_test_step_update` reads). -/
structure TestStepUpdateMsg where
  test_suite_execution_index : Nat
  test_case_execution_index : Nat
  test_step_execution_index : Nat
  state : TestStateEnum
  errors : Option (List String)
  deriving DecidableEq, Repr

/-- TestCaseUpdate from socket_schemas.py (the fields
`__log_test_case_update` reads). -/
structure TestCaseUpdateMsg where
  test_suite_execution_index : Nat
  test_case_execution_index : Nat
  state : TestStateEnum
  errors : Option (List String)
  deriving DecidableEq, Repr

/-- The error-tracking tail of `TestRunSocket.__log_test_step_update`
(websocket.py lines 204-210): when `update.errors` is truthy (non-None and
non-empty), the errors are appended to the entry keyed by
`(suite index, case index)`, creating the entry if absent. -/
def trackStepErrors (m : StepErrorMap) (u : TestStepUpdateMsg) : StepErrorMap :=
  match u.errors with
  | none => m
  | some errs =>
    if errs.isEmpty then m
    else
      let key := (u.test_suite_execution_index, u.test_case_execution_index)
      match dictLookup m key with
      | some old => dictSet m key (old ++ errs)
      | none => m ++ [(key, errs)]

/-- Substrings whose presence in the collated error text marks a test case
as requiring a browser WebRTC implementation (websocket.py lines 168-174). -/
def webrtcIndicators : List String :=
  ["browserpeerconnection", "webrtc", "browser peer",
   "ws://backend/api/v1/ws/webrtc", "create_browser_peer"]

/-- Python substring membership `needle in hay`. -/
def strContainsSub (hay needle : String) : Bool :=
  (List.range (hay.toList.length + 1)).any
    (fun i => needle.toList.isPrefixOf (hay.toList.drop i))

/-- The error-collation tail of `TestRunSocket.__log_test_case_update`
(websocket.py lines 141-190).  Only when the case update's state is
`failed` or `error`: the update's own errors and the tracked step errors
for `(suite index, case index)` are collated, the WebRTC warning decision
is computed (well-known public id, or any indicator substring of the
lower-cased joined error text), and the tracked entry for the key is
deleted when present.  For every other state the map is untouched.
Returns (new map, collated errors, warning emitted). -/
def logTestCaseUpdate (m : StepErrorMap) (u : TestCaseUpdateMsg)
    (public_id : String) : StepErrorMap × List String × Bool :=
  if u.state = TestStateEnum.FAILED ∨ u.state = TestStateEnum.ERROR then
    let fromUpdate := (u.errors).getD []
    let key := (u.test_suite_execution_index, u.test_case_execution_index)
    let tracked := (dictLookup m key).getD []
    let allErrors := fromUpdate ++ tracked
    let knownId := ["TC_WEBRTC_1_6"].contains public_id
    let errText := pyLower (" ".intercalate allErrors)
    let isWebRTC := knownId ||
      (!allErrors.isEmpty && webrtcIndicators.any (fun ind => strContainsSub errText ind))
    let m2 := if (dictLookup m key).isSome then dictErase m key else m
    (m2, allErrors, isWebRTC)
  else (m, [], false)

/-- Terminal states of the State entity, from spec section 3: every state
other than pending, pending-actuation and executing is terminal. -/
def isTerminalState : TestStateEnum → Bool
  | .PASSED => true
  | .FAILED => true
  | .ERROR => true
  | .NOT_APPLICABLE => true
  | .CANCELLED => true
  | _ => false

/-! ## webrtc_session.py: the CREATE_PEER_CONNECTION signaling branch -/

/-- An inbound signaling message as the peer reads it after `json.loads`:
the fields `_handle_signaling_messages` accesses with `.get`.  The session
id may arrive under the camelCase key `sessionId` or the snake_case key
`session_id`; the correlation fields `event_id` and `message_id` may be
absent. -/
structure SigMessage where
  type : String
  sessionIdCamel : Option String
  sessionIdSnake : Option String
  data : Option String
  error : Option String
  event_id : Option Nat
  message_id : Option Nat
  deriving DecidableEq, Repr

/-- The acknowledgement dict built in the CREATE_PEER_CONNECTION branch:
`{type, sessionId, data, error}` plus `event_id`/`message_id` when the
incoming message carried them. -/
structure PeerAckMessage where
  type : String
  sessionId : String
  data : Option String
  error : Option String
  event_id : Option Nat
  message_id : Option Nat
  deriving DecidableEq, Repr

/-- Embedding of the CREATE_PEER_CONNECTION branch of
`CLIWebRTCSession._handle_signaling_messages` (webrtc_session.py lines
184-213).  The session id is taken from the incoming `sessionId` key,
falling back to `session_id`, falling back to the current
`self.session_id`; `self.session_id` is updated to it; the acknowledgement
echoes the incoming type, carries that session id (under the camelCase
key), null data and error, and echoes `event_id` and `message_id` exactly
when present.  Returns (new `self.session_id`, acknowledgement sent). -/
def handleCreatePeerConnection (selfSessionId : String) (m : SigMessage) :
    String × PeerAckMessage :=
  let sid := m.sessionIdCamel.getD (m.sessionIdSnake.getD selfSessionId)
  (sid,
   { type := m.type
     sessionId := sid
     data := none
     error := none
     event_id := m.event_id
     message_id := m.message_id })

/-- An outbound signaling message built by the peer
(`_create_and_send_offer`, `_send_ice_candidate`, the answer of
`set_remote_offer_and_create_answer`): each carries
`"sessionId": self.session_id` in camelCase. -/
structure OutboundSignalingMessage where
  type : String
  sessionId : String
  data : Option String
  deriving DecidableEq, Repr

/-- Embedding of `CLIWebRTCSession._send_ice_candidate` (webrtc_session.py
lines 267-281) restricted to the envelope: the outbound
LOCAL_ICE_CANDIDATES message carries the current `self.session_id`. -/
def localIceCandidatesMessage (selfSessionId : String) (cand : String) :
    OutboundSignalingMessage :=
  { type := "LOCAL_ICE_CANDIDATES", sessionId := selfSessionId, data := some cand }

/-! ## Helper lemmas -/

/-- A value returned by the options input loop is a member of the option
map's values. -/
theorem promptUserForOption_mem (options : List (String × Int)) :
    ∀ (inputs : List String) (n : Int),
      promptUserForOption options inputs = some n →
      (options.map (fun kv => kv.2)).contains n = true := by
  intro inputs
  induction inputs with
  | nil => intro n h; simp [promptUserForOption] at h
  | cons line rest ih =>
    intro n h
    unfold promptUserForOption at h
    split at h
    · split at h
      · injection h with h; subst h; assumption
      · exact ih n h
    · exact ih n h

/-- A line returned by the text input loop passed `__valid_text_input`. -/
theorem promptUserForTextInput_valid (p : TextInputPromptRequest) :
    ∀ (inputs : List (List Char)) (line : List Char),
      promptUserForTextInput p inputs = some line →
      validTextInput line p = true := by
  intro inputs
  induction inputs with
  | nil => intro line h; simp [promptUserForTextInput] at h
  | cons l rest ih =>
    intro line h
    unfold promptUserForTextInput at h
    split at h
    · injection h with h; subst h; assumption
    · exact ih line h

/-- On the unbounded transcoder output queue, `put_nowait` always succeeds
and appends at the tail. -/
theorem putNowait_unbounded (q : List Nat) (c : Nat) :
    pyQueuePutNowait ffmpegOutputQueueMaxsize q c = some (q ++ [c]) := by
  simp [pyQueuePutNowait, ffmpegOutputQueueMaxsize]

/-- The transcoder reader appends every chunk it reads to the queue, in
order, dropping none. -/
theorem readFFmpegOutput_append :
    ∀ (chunks q : List Nat), readFFmpegOutput chunks q = q ++ chunks := by
  intro chunks
  induction chunks with
  | nil => intro q; simp [readFFmpegOutput]
  | cons c cs ih =>
    intro q
    unfold readFFmpegOutput
    rw [putNowait_unbounded]
    show readFFmpegOutput cs (q ++ [c]) = q ++ c :: cs
    rw [ih (q ++ [c]), List.append_assoc]
    rfl

/-- After erasing a key from the step-error map, a lookup of that key
fails. -/
theorem dictLookup_erase (k : Nat × Nat) :
    ∀ (m : StepErrorMap), dictLookup (dictErase m k) k = none := by
  intro m
  induction m with
  | nil => rfl
  | cons e rest ih =>
    unfold dictErase
    by_cases he : e.1 = k
    · rw [if_pos he]; exact ih
    · rw [if_neg he]; unfold dictLookup; rw [if_neg he]; exact ih

/-! ## Claim theorems -/

/-- C1, counterexample: dispatching an options prompt whose timeout elapses
without valid user input (`timesOut = true`) sends no response at all — in
particular no `prompt_response` with status TIMEOUT — contradicting the
claim that exactly one response is sent per prompt and that on timeout a
TIMEOUT response is still sent. -/
theorem C1_counterexample :
    handleOptionsPrompt ⟨"Please verify", 60, 5, [("yes", 1), ("no", 2)]⟩ [] true = [] ∧
    ¬ ∃ r ∈ handleOptionsPrompt ⟨"Please verify", 60, 5, [("yes", 1), ("no", 2)]⟩ [] true,
        r.status_code = UserResponseStatusEnum.TIMEOUT := by
  refine ⟨rfl, ?_⟩
  intro ⟨r, hr, _⟩
  simp [handleOptionsPrompt] at hr

/-- C1 (amended): for every prompt request the options handler dispatches,
at most one `prompt_response` is sent, and any sent response carries the
prompt's message id and status OK; if the prompt's timeout elapses without
valid user input being collected, no response is sent (the handler only
prints "Prompt timed out"). -/
theorem C1_amended (p : OptionsSelectPromptRequest) (inputs : List String)
    (timesOut : Bool) :
    (handleOptionsPrompt p inputs timesOut).length ≤ 1 ∧
    (∀ r ∈ handleOptionsPrompt p inputs timesOut,
       r.status_code = UserResponseStatusEnum.OKAY ∧ r.message_id = p.message_id) ∧
    (timesOut = true → handleOptionsPrompt p inputs timesOut = []) := by
  cases timesOut with
  | true => simp [handleOptionsPrompt]
  | false =>
    unfold handleOptionsPrompt
    cases h : promptUserForOption p.options inputs <;>
      simp [sendPromptResponse]

/-- C1, witness: the amended theorem applied to a concrete timed-out
prompt. -/
theorem C1_amended_witness :
    handleOptionsPrompt ⟨"q", 30, 7, [("ok", 1)]⟩ ["x"] true = [] :=
  (C1_amended ⟨"q", 30, 7, [("ok", 1)]⟩ ["x"] true).2.2 rfl

/-- C2: every inbound socket message whose payload is a PromptRequest and
whose type is not FILE_UPLOAD_REQUEST reaches the `handle_prompt` call of
websocket.py line 96, which passes the keyword argument `message_type` that
`handle_prompt`'s signature does not declare, so the dispatch raises
TypeError instead of collecting input. -/
theorem C2_prompt_dispatch_type_error (m : SocketMsg) (pr : String) (tm mid : Int)
    (hp : m.payload = SocketPayload.promptRequest pr tm mid)
    (ht : m.type ≠ MessageTypeEnum.FILE_UPLOAD_REQUEST) :
    handleIncomingSocketMessage m = DispatchOutcome.promptTypeError := by
  unfold handleIncomingSocketMessage
  rw [hp]
  rw [if_neg ht]
  simp [pyCallRaisesTypeError, handlePromptParams, handlePromptCallKwargs,
    handlePromptHasVarKeyword]

/-- C2, witness: a concrete options prompt message raises the TypeError. -/
theorem C2_witness :
    handleIncomingSocketMessage
        ⟨MessageTypeEnum.OPTIONS_REQUEST, SocketPayload.promptRequest "Prompt" 60 1⟩
      = DispatchOutcome.promptTypeError :=
  C2_prompt_dispatch_type_error _ "Prompt" 60 1 rfl (by decide)

/-- C3, counterexample: for the text prompt whose pattern is the regular
expression `a`, the input line "ab" is accepted (re.match anchors at the
start only) and an OK response with value "ab" is emitted, although "ab"
does not fully match the pattern — contradicting the claim that input is
accepted only on an entire-input match and that no OK response fails to
fully match. -/
theorem C3_counterexample :
    handleTextPrompt ⟨"p", 60, 1, some (RegularExpression.char 'a')⟩ [['a', 'b']] false
        = [{ response := ResponseValue.str "ab",
             status_code := UserResponseStatusEnum.OKAY,
             message_id := 1 }] ∧
    fullMatch (RegularExpression.char 'a') "ab".toList = false := by
  exact ⟨by decide, by decide⟩

/-- C3 (amended): for every text-input prompt carrying a regular expression
`r`, an input line is accepted only if `re.match` succeeds, i.e. `r`
matches some prefix of the input (anchored at the start, not at the end);
the dispatcher never emits an OK response whose value does not match `r` at
the start, and on mismatch it re-prompts (the invalid line is skipped and
the loop reads the next line). -/
theorem C3_amended (p : TextInputPromptRequest) (r : RegularExpression Char)
    (inputs : List (List Char)) (timesOut : Bool)
    (hr : p.regex_pattern = some r) :
    (∀ resp ∈ handleTextPrompt p inputs timesOut,
       ∃ line, resp = sendPromptResponse (ResponseValue.str (String.mk line)) p.message_id ∧
         pyReMatch r line = true) ∧
    (∀ (line : List Char) (rest : List (List Char)), validTextInput line p = false →
       promptUserForTextInput p (line :: rest) = promptUserForTextInput p rest) := by
  constructor
  · intro resp hresp
    unfold handleTextPrompt at hresp
    split at hresp
    · simp at hresp
    · cases h : promptUserForTextInput p inputs with
      | none => rw [h] at hresp; simp at hresp
      | some line =>
        rw [h] at hresp
        simp at hresp
        subst hresp
        refine ⟨line, rfl, ?_⟩
        have hv := promptUserForTextInput_valid p inputs line h
        unfold validTextInput at hv
        rw [hr] at hv
        exact hv
  · intro line rest hinv
    show (if validTextInput line p = true then some line else promptUserForTextInput p rest)
        = promptUserForTextInput p rest
    simp [hinv]

/-- C3, witness: the amended theorem applied to a concrete prompt, showing
the re-prompt on the mismatching line "b". -/
theorem C3_amended_witness :
    promptUserForTextInput ⟨"p", 60, 1, some (RegularExpression.char 'a')⟩ [['b']]
      = promptUserForTextInput ⟨"p", 60, 1, some (RegularExpression.char 'a')⟩ [] :=
  (C3_amended ⟨"p", 60, 1, some (RegularExpression.char 'a')⟩
    (RegularExpression.char 'a') [] false rfl).2 ['b'] [] (by decide)

/-- C4, counterexample: the MP4 fan-out queue is not bounded — no capacity
`c` bounds the queue length reachable by the transcoder reader, since
`queue.Queue()` is created with `maxsize = 0` (unbounded) and every
`put_nowait` succeeds. -/
theorem C4_counterexample :
    ¬ ∃ c : Nat, ∀ chunks : List Nat, (readFFmpegOutput chunks []).length ≤ c := by
  intro ⟨c, h⟩
  have hc := h (List.replicate (c + 1) 0)
  rw [readFFmpegOutput_append] at hc
  simp [List.length_replicate] at hc

/-- C4 (amended): the MP4 fan-out queue fed by the transcoder reader is
created unbounded (`queue.Queue()` with maxsize 0); the producer enqueues
each chunk with the non-blocking `put_nowait` and would drop a chunk on
`queue.Full`, so the ingest path is never blocked — but with the unbounded
queue the put always succeeds, no chunk is ever dropped, and every chunk is
appended in order. -/
theorem C4_amended :
    (∀ (q : List Nat) (c : Nat),
       pyQueuePutNowait ffmpegOutputQueueMaxsize q c = some (q ++ [c])) ∧
    (∀ (chunks q : List Nat), readFFmpegOutput chunks q = q ++ chunks) :=
  ⟨putNowait_unbounded, readFFmpegOutput_append⟩

/-- C5, counterexample: the POST /submit_response handler on the actual
(unbounded) response channel: first, body `{"response": "3"}` carries a
string, not an integer, yet is answered HTTP 200 and enqueued (refuting
"HTTP 400 if it is not an integer"); second, a surplus POST arriving while
the channel already holds a value is answered HTTP 200 and enqueued behind
it (refuting the capacity-1 channel with HTTP 500 on surplus POSTs). -/
theorem C5_counterexample :
    handleResponse (some (some (PyJson.jStr "3"))) [] cameraResponseQueueMaxsize
        = ({ status := 200, body := "\x7b\"status\": \"success\"\x7d" }, [3]) ∧
    handleResponse (some (some (PyJson.jInt 2))) [1] cameraResponseQueueMaxsize
        = ({ status := 200, body := "\x7b\"status\": \"success\"\x7d" }, [1, 2]) :=
  ⟨by decide, by decide⟩

/-- C5 (amended): for every POST to /submit_response, the handler answers
HTTP 400 when the body is unreadable or malformed JSON or the `response`
field is missing or null; otherwise it coerces the field with Python
`int()` — integers, booleans and integer-valued strings are accepted,
other strings are answered HTTP 400 (ValueError) and lists/objects HTTP
500 (TypeError reaches the generic handler); a successfully coerced value
is enqueued on the response channel, which is created unbounded, so the
enqueue never finds it full — surplus POSTs are also answered HTTP 200 —
and the handler answers HTTP 200 with body {"status": "success"}. -/
theorem C5_amended (q : List Int) (v : PyJson) (n : Int) :
    (handleResponse none q cameraResponseQueueMaxsize
        = ({ status := 400, body := "" }, q)) ∧
    (handleResponse (some none) q cameraResponseQueueMaxsize
        = ({ status := 400, body := "" }, q)) ∧
    (pyIntCoerce v = Except.ok n →
       handleResponse (some (some v)) q cameraResponseQueueMaxsize
         = ({ status := 200, body := "\x7b\"status\": \"success\"\x7d" }, q ++ [n])) ∧
    (pyIntCoerce v = Except.error PyErr.valueError →
       handleResponse (some (some v)) q cameraResponseQueueMaxsize
         = ({ status := 400, body := "" }, q)) ∧
    (pyIntCoerce v = Except.error PyErr.typeError →
       handleResponse (some (some v)) q cameraResponseQueueMaxsize
         = ({ status := 500, body := "" }, q)) := by
  refine ⟨rfl, rfl, ?_, ?_, ?_⟩ <;> intro h <;>
    simp [handleResponse, h, pyQueuePutNowait, cameraResponseQueueMaxsize]

/-- C5, witness: the amended theorem applied to a concrete surplus POST. -/
theorem C5_amended_witness :
    handleResponse (some (some (PyJson.jInt 4))) [5] cameraResponseQueueMaxsize
      = ({ status := 200, body := "\x7b\"status\": \"success\"\x7d" }, [5, 4]) :=
  (C5_amended [5] (PyJson.jInt 4) 4).2.2.1 rfl

/-- C6: on every path through the video prompt handler, the embedded HTTP
server is started (inside `start_video_capture_and_stream`) before the user
is told the verification URL, and the active HTTP server is stopped (inside
`stop_video_capture_and_stream`) before the prompt response is sent — no
URL echo precedes the server start and no response send precedes the server
stop, for every combination of start failure, wait failure, exception class
and web-UI answer. -/
theorem C6_video_lifecycle (sr wr et an : Bool) :
    eventPrecedes VEvent.startHTTP VEvent.echoURL
        (handleVideoPromptTrace ⟨sr, wr, et, an⟩) = true ∧
    eventPrecedes VEvent.stopHTTP VEvent.sendResponse
        (handleVideoPromptTrace ⟨sr, wr, et, an⟩) = true := by
  cases sr <;> cases wr <;> cases et <;> cases an <;> exact ⟨by decide, by decide⟩

/-- C7, counterexample: a step error ["boom"] is buffered for key (0, 0);
the test case then reaches PASSED — a terminal transition — yet the
buffered entry is not flushed: it is still in the map afterwards,
contradicting the claim that every terminal case transition flushes the
entry.  (The source only collates and deletes for `failed`/`error`.) -/
theorem C7_counterexample :
    isTerminalState TestStateEnum.PASSED = true ∧
    dictLookup
        (logTestCaseUpdate
          (trackStepErrors [] ⟨0, 0, 0, TestStateEnum.EXECUTING, some ["boom"]⟩)
          ⟨0, 0, TestStateEnum.PASSED, none⟩ "TC_X").1
        (0, 0)
      = some ["boom"] :=
  ⟨rfl, by decide⟩

/-- C7 (amended): step-level errors are buffered in a map keyed by
(suite index, case index); for every test-case update with state `failed`
or `error` the buffered entry for that key is flushed — collated after the
case's own errors and removed from the map — while for every other state
(including the terminal states passed, cancelled and not-applicable) the
map is left unchanged. -/
theorem C7_amended (m : StepErrorMap) (u : TestCaseUpdateMsg) (pid : String) :
    ((u.state = TestStateEnum.FAILED ∨ u.state = TestStateEnum.ERROR) →
       dictLookup (logTestCaseUpdate m u pid).1
           (u.test_suite_execution_index, u.test_case_execution_index) = none ∧
       (logTestCaseUpdate m u pid).2.1
         = (u.errors.getD []) ++
           (dictLookup m
             (u.test_suite_execution_index, u.test_case_execution_index)).getD []) ∧
    (¬(u.state = TestStateEnum.FAILED ∨ u.state = TestStateEnum.ERROR) →
       (logTestCaseUpdate m u pid).1 = m) := by
  constructor
  · intro hst
    simp only [logTestCaseUpdate, if_pos hst]
    constructor
    · by_cases hk :
        (dictLookup m (u.test_suite_execution_index, u.test_case_execution_index)).isSome
      · simp only [if_pos hk]
        exact dictLookup_erase _ m
      · simp only [if_neg hk]
        cases hl : dictLookup m (u.test_suite_execution_index, u.test_case_execution_index) with
        | none => rfl
        | some v => rw [hl] at hk; simp at hk
    · trivial
  · intro hst
    simp only [logTestCaseUpdate, if_neg hst]

/-- C7, witness: the amended theorem applied to a concrete failed case with
a buffered step error. -/
theorem C7_amended_witness :
    dictLookup
        (logTestCaseUpdate [((0, 0), ["boom"])]
          ⟨0, 0, TestStateEnum.FAILED, some ["e1"]⟩ "x").1 (0, 0) = none ∧
    (logTestCaseUpdate [((0, 0), ["boom"])]
        ⟨0, 0, TestStateEnum.FAILED, some ["e1"]⟩ "x").2.1
      = ((some ["e1"]).getD []) ++ ((dictLookup [((0, 0), ["boom"])] (0, 0)).getD []) :=
  (C7_amended [((0, 0), ["boom"])] ⟨0, 0, TestStateEnum.FAILED, some ["e1"]⟩ "x").1
    (Or.inl rfl)

/-- C8: every response the options-select input loop emits carries an
integer value that is a member of the option map's values (and by
construction every emitted response has status OK): invalid lines — non
integers or integers outside the values — are rejected with an error echo
and a re-read. -/
theorem C8_option_value_in_options (p : OptionsSelectPromptRequest)
    (inputs : List String) (timesOut : Bool) (resp : PromptResponseMsg)
    (hresp : resp ∈ handleOptionsPrompt p inputs timesOut) :
    ∃ n, resp.response = ResponseValue.int n ∧
      (p.options.map (fun kv => kv.2)).contains n = true := by
  unfold handleOptionsPrompt at hresp
  split at hresp
  · simp at hresp
  · cases h : promptUserForOption p.options inputs with
    | none => rw [h] at hresp; simp at hresp
    | some n =>
      rw [h] at hresp
      simp at hresp
      subst hresp
      exact ⟨n, rfl, promptUserForOption_mem p.options inputs n h⟩

/-- C8, witness: the theorem applied to a concrete prompt answered "2". -/
theorem C8_witness :
    ∃ n, (sendPromptResponse (ResponseValue.int 2) 1).response = ResponseValue.int n ∧
      (([("yes", 1), ("no", 2)] : List (String × Int)).map (fun kv => kv.2)).contains n
        = true :=
  C8_option_value_in_options ⟨"p", 60, 1, [("yes", 1), ("no", 2)]⟩ ["2"] false
    (sendPromptResponse (ResponseValue.int 2) 1) (by decide)

/-- C9: a readable regular file with (lower-cased) extension .txt or .log
and size exactly 100 MiB passes validation and reaches the upload (network
I/O attempted); a file of 100 MiB + 1 bytes is turned away by the size
check before any network I/O, with an empty-value response; a file with
any other extension fails validation. -/
theorem C9_file_size_boundary (f : FileInfo) (httpStatus : Option Nat) :
    ((f.isFile = true) → (f.readable = true) →
       ([".txt", ".log"].contains (pyLower f.ext) = true) →
       f.size = MAX_FILE_SIZE →
       validFileUpload f = true ∧
       (uploadFileAndSendResponse f httpStatus).networkAttempted = true) ∧
    (f.size = MAX_FILE_SIZE + 1 →
       (uploadFileAndSendResponse f httpStatus).networkAttempted = false ∧
       (uploadFileAndSendResponse f httpStatus).responseValue = "") ∧
    ([".txt", ".log"].contains (pyLower f.ext) = false → validFileUpload f = false) := by
  refine ⟨?_, ?_, ?_⟩
  · intro h1 h2 h3 h4
    have h3a : pyLower f.ext = ".txt" ∨ pyLower f.ext = ".log" := by simpa using h3
    refine ⟨by simp [validFileUpload, h1, h2, h3a], ?_⟩
    unfold uploadFileAndSendResponse
    simp [h1, h4, MAX_FILE_SIZE]
    split <;> rfl
  · intro h4
    cases hf : f.isFile with
    | false => simp [uploadFileAndSendResponse, hf]
    | true => simp [uploadFileAndSendResponse, hf, h4, MAX_FILE_SIZE]
  · intro h3
    have h3a : ¬pyLower f.ext = ".txt" ∧ ¬pyLower f.ext = ".log" := by simpa using h3
    simp [validFileUpload, h3a.1, h3a.2]

/-- C9, witness: the theorem applied to a .txt file of exactly 100 MiB. -/
theorem C9_witness :
    validFileUpload ⟨true, true, ".txt", 104857600⟩ = true ∧
    (uploadFileAndSendResponse ⟨true, true, ".txt", 104857600⟩
        (some 200)).networkAttempted = true :=
  (C9_file_size_boundary ⟨true, true, ".txt", 104857600⟩ (some 200)).1
    rfl rfl (by decide) (by decide)

/-- C10: a CREATE_PEER_CONNECTION message is acknowledged with the same
type, the session id copied from the incoming `sessionId` (camelCase) key,
null data and error, and `event_id`/`message_id` echoed exactly when
present; two consecutive CREATE_PEER_CONNECTION messages produce two
acknowledgements with their respective session ids, the stored session id
after the second is the second one, and subsequent outbound signaling
messages (LOCAL_ICE_CANDIDATES) carry it. -/
theorem C10_create_peer_connection_ack (st : String) (m1 m2 : SigMessage)
    (s1 s2 cand : String)
    (ht1 : m1.type = "CREATE_PEER_CONNECTION")
    (h1 : m1.sessionIdCamel = some s1)
    (h2 : m2.sessionIdCamel = some s2) :
    (handleCreatePeerConnection st m1).2
        = { type := "CREATE_PEER_CONNECTION", sessionId := s1, data := none,
            error := none, event_id := m1.event_id, message_id := m1.message_id } ∧
    (handleCreatePeerConnection st m1).1 = s1 ∧
    (handleCreatePeerConnection (handleCreatePeerConnection st m1).1 m2).2.sessionId = s2 ∧
    (handleCreatePeerConnection (handleCreatePeerConnection st m1).1 m2).1 = s2 ∧
    localIceCandidatesMessage
        (handleCreatePeerConnection (handleCreatePeerConnection st m1).1 m2).1 cand
      = { type := "LOCAL_ICE_CANDIDATES", sessionId := s2, data := some cand } := by
  simp [handleCreatePeerConnection, localIceCandidatesMessage, ht1, h1, h2]

/-- C10, witness: the theorem applied to two concrete consecutive
CREATE_PEER_CONNECTION messages. -/
theorem C10_witness :
    (handleCreatePeerConnection
        (handleCreatePeerConnection "cli-session"
          ⟨"CREATE_PEER_CONNECTION", some "s1", none, none, none, some 7, some 9⟩).1
        ⟨"CREATE_PEER_CONNECTION", some "s2", none, none, none, none, none⟩).1 = "s2" :=
  (C10_create_peer_connection_ack "cli-session"
    ⟨"CREATE_PEER_CONNECTION", some "s1", none, none, none, some 7, some 9⟩
    ⟨"CREATE_PEER_CONNECTION", some "s2", none, none, none, none, none⟩
    "s1" "s2" "c" rfl rfl rfl).2.2.2.1

end ThCli
